import Mathlib

/-!
Verification of `scripts/ingest_financial_data.py` (class `FinancialDataPipeline`).

The Python script is a sequential ETL pipeline: a static five-company catalog,
an HTTP fetch of daily stock quotes for the first two companies, a trivial
emptiness/null validator, and loads into a warehouse via `write_pandas`.

Shallow embedding choices:
- A pandas DataFrame built from a list of record dicts is modelled as
  `DataFrame := List Row`, where a `Row` is an association list from column
  name to an optional cell value (`none` models a null/NaN cell).
- The HTTP boundary is an oracle `http : String → FetchOutcome` giving, per
  ticker, either a response (status code plus optional parsed
  "Time Series (Daily)" payload, `none` modelling a 200 body without that
  key) or `raises` (the `requests.get`/parsing call raised an exception).
- `datetime.utcnow()` is a single abstract timestamp `now : Nat` per run.
- The warehouse is an oracle `loadFails : String → Bool` telling, per
  destination table name, whether `write_pandas` raises; the calls made to
  `write_pandas` are recorded as a list of `WriteCall`s.
- The `try/except/finally` of `run_pipeline` is modelled by explicit control flow:
  `raised` records whether an exception escapes the `try` (the `except`
  clause re-raises), and `closes` counts invocations of `sf_conn.close()`
  in the `finally` clause.
-/

set_option autoImplicit false

namespace FinancialData

/-- A cell value of a dataframe: string, float (as `Rat`), int, or timestamp. -/
inductive Val where
  | str (s : String)
  | num (q : Rat)
  | int (n : Int)
  | time (t : Nat)
  deriving DecidableEq, Repr

/-- A record/row: association list from column name to optional cell
(`none` is a null value). -/
abbrev Row := List (String × Option Val)

/-- A pandas DataFrame built from a list of record dicts. -/
abbrev DataFrame := List Row

/-- One entry of the hard-coded `self.companies` list. -/
structure Company where
  ticker : String
  name : String
  sector : String
  deriving DecidableEq, Repr

/-- The list `self.companies` from `FinancialDataPipeline.__init__` (lines 26-32). -/
def companies : List Company :=
  [ ⟨"AAPL", "Apple Inc.", "Technology"⟩,
    ⟨"JPM", "JPMorgan Chase", "Finance"⟩,
    ⟨"JNJ", "Johnson & Johnson", "Healthcare"⟩,
    ⟨"PG", "Procter & Gamble", "Consumer"⟩,
    ⟨"XOM", "Exxon Mobil", "Energy"⟩ ]

/-- The parsed numeric fields of one daily entry of the
"Time Series (Daily)" payload ("1. open", "2. high", "3. low", "4. close",
"6. volume" already converted by `float`/`int`). -/
structure DailyPrices where
  p_open : Rat
  p_high : Rat
  p_low : Rat
  p_close : Rat
  p_volume : Int
  deriving DecidableEq, Repr

/-- Outcome of one `requests.get` for a ticker: a response with a status code
and (for status 200 bodies) an optional "Time Series (Daily)" payload — `none`
models a JSON body missing that key — or `raises`, modelling an exception
thrown by the request or by parsing. -/
inductive FetchOutcome where
  | response (status : Nat) (body : Option (List (String × DailyPrices)))
  | raises
  deriving DecidableEq, Repr

/-- Whether an outcome is the exception case. -/
def isRaises : FetchOutcome → Bool
  | .raises => true
  | .response _ _ => false

/-- The record dict appended for one daily entry (lines 79-88), in the
insertion order of the Python dict literal. -/
def mkQuoteRow (ticker : String) (now : Nat) (e : String × DailyPrices) : Row :=
  [ ("ticker", some (.str ticker)),
    ("date", some (.str e.1)),
    ("open_price", some (.num e.2.p_open)),
    ("close_price", some (.num e.2.p_close)),
    ("high_price", some (.num e.2.p_high)),
    ("low_price", some (.num e.2.p_low)),
    ("volume", some (.int e.2.p_volume)),
    ("ingested_at", some (.time now)) ]

/-- The fetch loop of `fetch_stock_prices` (lines 62-97) over a company list.
Returns (accumulated records, tickers for which a GET was issued, whether an
exception aborted the loop). A 200 response with the payload key contributes
the first 30 daily entries mapped through `mkQuoteRow`; a non-200 status or a
missing payload key only logs a warning and contributes nothing; `raises`
propagates out of the `for` loop to the `except` at line 95, so no later
company is queried, but records accumulated so far are kept. -/
def fetchLoop (http : String → FetchOutcome) (now : Nat) :
    List Company → List Row × List String × Bool
  | [] => ([], [], false)
  | c :: rest =>
    match http c.ticker with
    | .raises => ([], [c.ticker], true)
    | .response status body =>
      let contrib :=
        if status == 200 then
          match body with
          | some series => (series.take 30).map (mkQuoteRow c.ticker now)
          | none => []
        else []
      let r := fetchLoop http now rest
      (contrib ++ r.1, c.ticker :: r.2.1, r.2.2)

/-- Model of `fetch_stock_prices` (lines 56-98): iterates `companies[:2]`, returns the
accumulated records (an empty list when nothing was fetched; the function
itself never raises, the outer `try/except` swallows exceptions). -/
def fetch_stock_prices (http : String → FetchOutcome) (now : Nat)
    (cs : List Company) : List Row :=
  (fetchLoop http now (cs.take 2)).1

/-- The tickers for which `fetch_stock_prices` issues an HTTP GET. -/
def fetchQueried (http : String → FetchOutcome) (now : Nat)
    (cs : List Company) : List String :=
  (fetchLoop http now (cs.take 2)).2.1

/-- The records a single catalog entry contributes when no exception occurs:
empty unless its response is status 200 with the payload key present, in
which case the first 30 daily entries are mapped through `mkQuoteRow`. -/
def entryRecords (http : String → FetchOutcome) (now : Nat)
    (c : Company) : List Row :=
  match http c.ticker with
  | .raises => []
  | .response status body =>
    if status == 200 then
      match body with
      | some series => (series.take 30).map (mkQuoteRow c.ticker now)
      | none => []
    else []

/-- Concatenation of the images of `f`, used to state per-entry decomposition
of the fetch result. -/
def concatMap {α β : Type} (f : α → List β) : List α → List β
  | [] => []
  | a :: l => f a ++ concatMap f l

/-- Model of `create_company_dimension` (lines 100-106): the five companies as rows,
stamped with `created_at`/`updated_at` timestamps. -/
def create_company_dimension (now : Nat) : DataFrame :=
  companies.map (fun c =>
    [ ("ticker", some (.str c.ticker)),
      ("name", some (.str c.name)),
      ("sector", some (.str c.sector)),
      ("created_at", some (.time now)),
      ("updated_at", some (.time now)) ])

/-- Model of `validate_data` (lines 108-124): returns `false` for an empty dataframe
(after a warning log), otherwise logs null counts as warnings and returns
`true`. The boolean result depends only on emptiness. -/
def validate_data (df : DataFrame) (table_name : String) : Bool :=
  if df.isEmpty then false else true

/-- Whether row `r` is null (or missing) at column `col`; mirrors how pandas
counts a missing key or a `None` value as null in `df.isnull()`. -/
def isNullAt (r : Row) (col : String) : Bool :=
  match r.lookup col with
  | some (some _) => false
  | _ => true

/-- The per-column null count `df[critical_cols].isnull().sum()` computed at
lines 117-118; it feeds the warning log only, never the return value. -/
def nullCount (df : DataFrame) (col : String) : Nat :=
  (df.filter (fun r => isNullAt r col)).length

/-- The arguments of one call to `write_pandas` (lines 131-137). -/
structure WriteCall where
  table : String
  rows : DataFrame
  autoCreate : Bool
  overwrite : Bool
  deriving DecidableEq, Repr

/-- The Python `str.upper()` on the ASCII table names used here: char-wise
uppercase. (Extensionally `String.toUpper`, but written over the character
list so the kernel can evaluate it.) -/
def pyUpper (s : String) : String := String.mk (s.data.map Char.toUpper)

/-- Model of `load_to_snowflake` (lines 126-142): the `write_pandas` call it issues —
destination table name uppercased, `auto_create_table=True`,
`overwrite=False`. Whether the write raises is decided by the environment. -/
def load_to_snowflake (df : DataFrame) (table_name : String) : WriteCall :=
  { table := pyUpper table_name
    rows := df
    autoCreate := true
    overwrite := false }

/-- The hard-coded four-row mock quote set of `run_pipeline` (lines 164-173),
column-wise in the source, row-wise here. -/
def mock_prices (now : Nat) : DataFrame :=
  [ [ ("ticker", some (.str "AAPL")), ("date", some (.str "2025-01-10")),
      ("open_price", some (.num 150.0)), ("close_price", some (.num 151.0)),
      ("high_price", some (.num 152.0)), ("low_price", some (.num 149.5)),
      ("volume", some (.int 50000000)), ("ingested_at", some (.time now)) ],
    [ ("ticker", some (.str "AAPL")), ("date", some (.str "2025-01-09")),
      ("open_price", some (.num 148.5)), ("close_price", some (.num 149.0)),
      ("high_price", some (.num 150.0)), ("low_price", some (.num 148.0)),
      ("volume", some (.int 45000000)), ("ingested_at", some (.time now)) ],
    [ ("ticker", some (.str "JPM")), ("date", some (.str "2025-01-10")),
      ("open_price", some (.num 200.0)), ("close_price", some (.num 201.0)),
      ("high_price", some (.num 202.0)), ("low_price", some (.num 199.5)),
      ("volume", some (.int 30000000)), ("ingested_at", some (.time now)) ],
    [ ("ticker", some (.str "JPM")), ("date", some (.str "2025-01-09")),
      ("open_price", some (.num 199.0)), ("close_price", some (.num 200.0)),
      ("high_price", some (.num 201.0)), ("low_price", some (.num 198.5)),
      ("volume", some (.int 28000000)), ("ingested_at", some (.time now)) ] ]

/-- The external environment of one run: the HTTP oracle, the run timestamp,
and which destination tables make `write_pandas` raise. -/
structure Env where
  http : String → FetchOutcome
  now : Nat
  loadFails : String → Bool

/-- Observable outcome of `run_pipeline`: the `write_pandas` calls issued in
order, whether an exception escapes the `try` block (and is re-raised by the
`except` clause), and how many times `sf_conn.close()` ran. -/
structure RunResult where
  writes : List WriteCall
  raised : Bool
  closes : Nat
  deriving DecidableEq, Repr

/-- The stock-price half of `run_pipeline` (lines 159-174): load the fetched
quotes when non-empty and validated, otherwise load the mock set. `acc` holds
the write calls already issued. -/
def quotesStep (env : Env) (stock : DataFrame) (acc : List WriteCall) :
    RunResult :=
  if !stock.isEmpty && validate_data stock "stg_stock_prices" then
    let w := load_to_snowflake stock "stg_stock_prices"
    { writes := acc ++ [w], raised := env.loadFails w.table, closes := 1 }
  else
    let w := load_to_snowflake (mock_prices env.now) "stg_stock_prices"
    { writes := acc ++ [w], raised := env.loadFails w.table, closes := 1 }

/-- Model of `run_pipeline` (lines 144-185): build the dimension, fetch quotes,
validate and load the dimension, then load quotes or the mock fallback. A
failed load raises out of the `try`, the `except` re-raises, and the
`finally` closes the (always present) connection exactly once on every
path. -/
def run_pipeline (env : Env) : RunResult :=
  let companies_df := create_company_dimension env.now
  let stock_prices_df := fetch_stock_prices env.http env.now companies
  if validate_data companies_df "stg_companies" then
    let w1 := load_to_snowflake companies_df "stg_companies"
    if env.loadFails w1.table then
      { writes := [w1], raised := true, closes := 1 }
    else
      quotesStep env stock_prices_df [w1]
  else
    quotesStep env stock_prices_df []

/-- A concrete HTTP oracle answering 404 to every ticker. -/
def http404 : String → FetchOutcome := fun _ => .response 404 none

/-- A concrete one-entry "Time Series (Daily)" payload. -/
def goodSeries : List (String × DailyPrices) :=
  [("2025-01-10", ⟨100, 101, 99, 100, 1000⟩)]

/-- A concrete HTTP oracle: the request for AAPL raises an exception, every
other ticker gets a successful 200 response with `goodSeries`. -/
def httpExn : String → FetchOutcome := fun t =>
  if t == "AAPL" then .raises else .response 200 (some goodSeries)

/-- A concrete HTTP oracle: AAPL gets a 404 (soft failure), every other
ticker gets a successful 200 response with `goodSeries`. -/
def httpSoft : String → FetchOutcome := fun t =>
  if t == "AAPL" then .response 404 none else .response 200 (some goodSeries)

/-- A concrete HTTP oracle: AAPL gets a successful 200 response with
`goodSeries`, the request for JPM raises an exception. -/
def httpExnJPM : String → FetchOutcome := fun t =>
  if t == "JPM" then .raises else .response 200 (some goodSeries)

/-- A concrete environment: every fetch 404s and the company-dimension load
(to table STG_COMPANIES) fails. -/
def envDimFail : Env :=
  { http := http404, now := 0, loadFails := fun t => t == "STG_COMPANIES" }

/-- A concrete environment: every fetch 404s and all loads succeed. -/
def envAllOk : Env :=
  { http := http404, now := 0, loadFails := fun _ => false }

/-! ## Theorems -/

/-- Claim C9: the static catalog returns exactly 5 company records with
pairwise-distinct tickers. Being a constant list, it is the same on every
call and cannot fail. -/
theorem C9_static_catalog :
    companies.length = 5 ∧ (companies.map Company.ticker).Nodup := by
  decide

/-- Claim C4: the validator returns false on an empty record collection and
true on every non-empty one — in particular the result never depends on how
many cells are null, since it is determined by emptiness alone. -/
theorem C4_validator (df : DataFrame) (table_name : String) :
    (df = [] → validate_data df table_name = false) ∧
    (df ≠ [] → validate_data df table_name = true) := by
  constructor
  · intro h
    subst h
    rfl
  · intro h
    cases df with
    | nil => exact absurd rfl h
    | cons r rest => rfl

/-- Witness for C4: a one-row collection whose single field is null still
validates to true (and its null count is indeed nonzero), while the empty
collection validates to false. -/
theorem C4_validator_witness :
    validate_data [[("a", (none : Option Val))]] "x" = true ∧
    validate_data ([] : DataFrame) "x" = false ∧
    nullCount [[("a", (none : Option Val))]] "a" = 1 :=
  ⟨(C4_validator [[("a", none)]] "x").2 (by decide),
   (C4_validator [] "x").1 rfl, by decide⟩

/-- Claim C8: every load passes the uppercased table name to the warehouse
write, with auto-create enabled and overwrite disabled (append semantics),
writing exactly the given rows. -/
theorem C8_load_call (df : DataFrame) (table_name : String) :
    (load_to_snowflake df table_name).table = pyUpper table_name ∧
    (load_to_snowflake df table_name).autoCreate = true ∧
    (load_to_snowflake df table_name).overwrite = false ∧
    (load_to_snowflake df table_name).rows = df :=
  ⟨rfl, rfl, rfl, rfl⟩

/-- Helper: when every response has a non-200 status, the fetch loop
accumulates no records (an exception outcome also contributes nothing). -/
theorem fetchLoop_no200_nil (http : String → FetchOutcome) (now : Nat)
    (h : ∀ t s b, http t = .response s b → s ≠ 200) :
    ∀ l : List Company, (fetchLoop http now l).1 = [] := by
  intro l
  induction l with
  | nil => rfl
  | cons c rest ih =>
    simp only [fetchLoop]
    cases hc : http c.ticker with
    | raises => rfl
    | response status body =>
      have hs : status ≠ 200 := h c.ticker status body hc
      simp [hs, ih]

/-- Claim C3: the quote fetch is a total function of its inputs (the Python
`try/except` swallows every exception), and when every HTTP response carries
a non-200 status it returns the empty record list. -/
theorem C3_non200_gives_empty (http : String → FetchOutcome) (now : Nat)
    (cs : List Company)
    (h : ∀ t s b, http t = .response s b → s ≠ 200) :
    fetch_stock_prices http now cs = [] :=
  fetchLoop_no200_nil http now h (cs.take 2)

/-- Witness for C3: with the all-404 oracle the fetch over the real catalog
returns the empty list. -/
theorem C3_non200_gives_empty_witness :
    fetch_stock_prices http404 0 companies = [] :=
  C3_non200_gives_empty http404 0 companies
    (fun t s b hh => by
      injection hh with h1 h2
      omega)

/-- Helper: the queried-ticker list of the fetch loop is a prefix of the
tickers of the list it walks (the loop stops early on an exception). -/
theorem fetchLoop_queried_spec (http : String → FetchOutcome) (now : Nat) :
    ∀ l : List Company, (fetchLoop http now l).2.1.length ≤ l.length ∧
      ∃ r, l.map Company.ticker = (fetchLoop http now l).2.1 ++ r := by
  intro l
  induction l with
  | nil => exact ⟨Nat.le_refl 0, [], rfl⟩
  | cons c rest ih =>
    simp only [fetchLoop]
    cases hc : http c.ticker with
    | raises =>
      refine ⟨by simp, rest.map Company.ticker, by simp⟩
    | response status body =>
      obtain ⟨h1, r, h2⟩ := ih
      refine ⟨by simpa using h1, r, by simp [h2]⟩

/-- Claim C6: for any catalog, at most the first 2 entries are ever queried
against the API: the queried tickers number at most 2 and form a prefix of
the tickers of the first two catalog entries. -/
theorem C6_at_most_two_queried (http : String → FetchOutcome) (now : Nat)
    (cs : List Company) :
    (fetchQueried http now cs).length ≤ 2 ∧
    ∃ r, (cs.take 2).map Company.ticker = fetchQueried http now cs ++ r := by
  obtain ⟨h1, r, h2⟩ := fetchLoop_queried_spec http now (cs.take 2)
  refine ⟨le_trans h1 ?_, r, h2⟩
  exact List.length_take_le 2 cs

/-- Helper: the company dimension is never empty, so its validation always
passes. -/
theorem validate_companies_true (now : Nat) (t : String) :
    validate_data (create_company_dimension now) t = true := rfl

/-- Helper: whatever the quote dataframe, the quote step issues exactly one
further write call, raises exactly when that write fails, and ends with one
connection close. -/
theorem quotesStep_spec (env : Env) (stock : DataFrame) (acc : List WriteCall) :
    ∃ w, (quotesStep env stock acc).writes = acc ++ [w] ∧
      (quotesStep env stock acc).raised = env.loadFails w.table ∧
      (quotesStep env stock acc).closes = 1 := by
  unfold quotesStep
  split
  · exact ⟨_, rfl, rfl, rfl⟩
  · exact ⟨_, rfl, rfl, rfl⟩

/-- Claim C2: on every exit path of the pipeline run the connection close
routine runs exactly once, and an exception is re-raised to the top level
exactly when one of the issued warehouse writes failed. -/
theorem C2_close_exactly_once (env : Env) :
    (run_pipeline env).closes = 1 ∧
    (run_pipeline env).raised =
      (run_pipeline env).writes.any (fun w => env.loadFails w.table) := by
  simp only [run_pipeline]
  rw [validate_companies_true]
  simp only [if_true]
  by_cases hf : env.loadFails
      (load_to_snowflake (create_company_dimension env.now) "stg_companies").table
  · rw [if_pos hf]
    simp [hf]
  · rw [if_neg hf]
    obtain ⟨w, hw, hr, hc⟩ := quotesStep_spec env
      (fetch_stock_prices env.http env.now companies)
      [load_to_snowflake (create_company_dimension env.now) "stg_companies"]
    refine ⟨hc, ?_⟩
    rw [hw, hr]
    simp [Bool.not_eq_true] at hf
    simp [hf]

/-- Claim C10: the company dimension is non-empty and carries no null cell,
so its validation always returns true and the dimension load is always
attempted — the very first warehouse write of every run is the dimension
write, making the skip branch unreachable. -/
theorem C10_dimension_always_loaded (env : Env) :
    (create_company_dimension env.now).isEmpty = false ∧
    ((create_company_dimension env.now).all fun r =>
      r.all fun kv => kv.2.isSome) = true ∧
    validate_data (create_company_dimension env.now) "stg_companies" = true ∧
    (run_pipeline env).writes.head? =
      some (load_to_snowflake (create_company_dimension env.now) "stg_companies") := by
  refine ⟨rfl, rfl, rfl, ?_⟩
  simp only [run_pipeline]
  rw [validate_companies_true]
  simp only [if_true]
  by_cases hf : env.loadFails
      (load_to_snowflake (create_company_dimension env.now) "stg_companies").table
  · rw [if_pos hf]
    rfl
  · rw [if_neg hf]
    obtain ⟨w, hw, hr, hc⟩ := quotesStep_spec env
      (fetch_stock_prices env.http env.now companies)
      [load_to_snowflake (create_company_dimension env.now) "stg_companies"]
    rw [hw]
    rfl

/-- Claim C1 as stated is false: in a run where the quote fetch yields zero
records but the company-dimension load fails, the exception aborts the run
before the mock substitution, so nothing at all is written to the quotes
table. -/
theorem C1_counterexample :
    fetch_stock_prices envDimFail.http envDimFail.now companies = [] ∧
    (run_pipeline envDimFail).writes.filter
      (fun w => w.table == "STG_STOCK_PRICES") = [] ∧
    (run_pipeline envDimFail).raised = true :=
  ⟨rfl, rfl, rfl⟩

/-- Claim C1 (amended): in every run where the quote fetch yields zero
records and the company-dimension load does not fail, the runner issues
exactly one write to the quotes table, carrying exactly the 4 fixed mock
rows. -/
theorem C1_mock_fallback (env : Env)
    (hempty : fetch_stock_prices env.http env.now companies = [])
    (hok : env.loadFails "STG_COMPANIES" = false) :
    (run_pipeline env).writes.filter (fun w => w.table == "STG_STOCK_PRICES") =
      [load_to_snowflake (mock_prices env.now) "stg_stock_prices"] ∧
    (mock_prices env.now).length = 4 := by
  refine ⟨?_, rfl⟩
  simp only [run_pipeline]
  rw [validate_companies_true]
  simp only [if_true]
  rw [show (load_to_snowflake (create_company_dimension env.now)
        "stg_companies").table = "STG_COMPANIES" from rfl, hok, hempty]
  rfl

/-- Witness for C1 (amended): concrete all-404, all-loads-succeed run. -/
theorem C1_mock_fallback_witness :
    (run_pipeline envAllOk).writes.filter (fun w => w.table == "STG_STOCK_PRICES") =
      [load_to_snowflake (mock_prices envAllOk.now) "stg_stock_prices"] ∧
    (mock_prices envAllOk.now).length = 4 :=
  C1_mock_fallback envAllOk rfl rfl

/-- Helper: when no outcome of the walked entries is an exception, the fetch
loop result decomposes entry-wise. -/
theorem fetchLoop_no_exn (http : String → FetchOutcome) (now : Nat) :
    ∀ l : List Company, (l.all fun c => !isRaises (http c.ticker)) = true →
      (fetchLoop http now l).1 = concatMap (entryRecords http now) l := by
  intro l
  induction l with
  | nil => intro _; rfl
  | cons c rest ih =>
    intro h
    simp only [List.all_cons, Bool.and_eq_true] at h
    obtain ⟨hc, hrest⟩ := h
    cases hco : http c.ticker with
    | raises =>
      rw [hco] at hc
      simp [isRaises] at hc
    | response status body =>
      simp only [fetchLoop, entryRecords, concatMap, hco]
      rw [ih hrest]

/-- Claim C5 as stated is false: the `try/except` wraps the whole fetch loop,
so an exception for the first entry (AAPL) prevents the second (JPM) from
being processed at all. The two oracles below agree on JPM — which has a
fully successful 200 response with one daily entry — yet JPM contributes its
record only when AAPL fails softly (404); when AAPL raises, the fetch result
is empty, so the AAPL failure did affect the records of another entry. -/
theorem C5_counterexample :
    httpExn "JPM" = httpSoft "JPM" ∧
    fetch_stock_prices httpSoft 0 companies =
      [mkQuoteRow "JPM" 0 ("2025-01-10", ⟨100, 101, 99, 100, 1000⟩)] ∧
    fetch_stock_prices httpExn 0 companies = [] :=
  ⟨rfl, rfl, rfl⟩

/-- Helper: when the walked list splits into non-raising entries followed by
a raising one, the fetch loop returns exactly the records accumulated before
the exception — the raising entry and everything after it contribute
nothing. -/
theorem fetchLoop_abort_at_exn (http : String → FetchOutcome) (now : Nat) :
    ∀ (l1 : List Company) (c : Company) (l2 : List Company),
      (l1.all fun x => !isRaises (http x.ticker)) = true →
      http c.ticker = .raises →
      (fetchLoop http now (l1 ++ c :: l2)).1 =
        concatMap (entryRecords http now) l1 := by
  intro l1
  induction l1 with
  | nil =>
    intro c l2 _ hc
    simp only [List.nil_append, fetchLoop, hc]
    rfl
  | cons a l1 ih =>
    intro c l2 h hc
    simp only [List.all_cons, Bool.and_eq_true] at h
    obtain ⟨ha, hrest⟩ := h
    cases hao : http a.ticker with
    | raises =>
      rw [hao] at ha
      simp [isRaises] at ha
    | response status body =>
      simp only [List.cons_append, fetchLoop, entryRecords, concatMap, hao]
      exact congrArg _ (ih c l2 hrest hc)

/-- Claim C5 (amended): non-200 responses and missing payload keys are
handled locally — when no queried entry raises, the fetch result is the
entry-wise concatenation of per-entry contributions, and an entry whose
response is not a 200 with the payload key contributes the empty list. An
exception, by contrast, aborts the loop: when the queried entries split into
non-raising ones followed by a raising one, the result is exactly the
contributions of the entries before the exception (they are kept), while the
raising entry and every later entry contribute nothing, whatever their
responses; the fetch being a total function, nothing reaches the caller. -/
theorem C5_failure_handling (http : String → FetchOutcome) (now : Nat)
    (cs : List Company) :
    (((cs.take 2).all fun c => !isRaises (http c.ticker)) = true →
      fetch_stock_prices http now cs =
        concatMap (entryRecords http now) (cs.take 2)) ∧
    (∀ c : Company, ∀ status body, http c.ticker = .response status body →
      status ≠ 200 ∨ body = none → entryRecords http now c = []) ∧
    (∀ l1 (c : Company) l2, cs.take 2 = l1 ++ c :: l2 →
      (l1.all fun x => !isRaises (http x.ticker)) = true →
      http c.ticker = .raises →
      fetch_stock_prices http now cs = concatMap (entryRecords http now) l1) := by
  refine ⟨fetchLoop_no_exn http now (cs.take 2), ?_, ?_⟩
  · intro c status body hco hfail
    rcases hfail with hs | hb
    · simp [entryRecords, hco, hs]
    · subst hb
      simp only [entryRecords, hco]
      split <;> rfl
  · intro l1 c l2 hsplit h1 hc
    unfold fetch_stock_prices
    rw [hsplit]
    exact fetchLoop_abort_at_exn http now l1 c l2 h1 hc

/-- Witness for C5 (amended): under the soft-failure oracle the fetch equals
the per-entry concatenation and the 404 AAPL entry contributes nothing;
under the oracle where AAPL succeeds but JPM raises, the fetch keeps exactly
the AAPL records accumulated before the exception — concretely, the one
mapped AAPL record. -/
theorem C5_failure_handling_witness :
    fetch_stock_prices httpSoft 0 companies =
      concatMap (entryRecords httpSoft 0) (companies.take 2) ∧
    entryRecords httpSoft 0 ⟨"AAPL", "Apple Inc.", "Technology"⟩ = [] ∧
    fetch_stock_prices httpExnJPM 0 companies =
      concatMap (entryRecords httpExnJPM 0) [⟨"AAPL", "Apple Inc.", "Technology"⟩] ∧
    concatMap (entryRecords httpExnJPM 0) [⟨"AAPL", "Apple Inc.", "Technology"⟩] =
      [mkQuoteRow "AAPL" 0 ("2025-01-10", ⟨100, 101, 99, 100, 1000⟩)] :=
  ⟨(C5_failure_handling httpSoft 0 companies).1 rfl,
   (C5_failure_handling httpSoft 0 companies).2.1
     ⟨"AAPL", "Apple Inc.", "Technology"⟩ 404 none rfl (Or.inl (by decide)),
   (C5_failure_handling httpExnJPM 0 companies).2.2
     [⟨"AAPL", "Apple Inc.", "Technology"⟩] ⟨"JPM", "JPMorgan Chase", "Finance"⟩
     [] rfl rfl rfl,
   rfl⟩

/-- Helper: `concatMap` distributes over list append. -/
theorem concatMap_append {α β : Type} (f : α → List β) (l1 l2 : List α) :
    concatMap f (l1 ++ l2) = concatMap f l1 ++ concatMap f l2 := by
  induction l1 with
  | nil => rfl
  | cons a l ih => simp [concatMap, ih]

/-- Helper: every record built by `mkQuoteRow` carries the fetch timestamp in
its `ingested_at` column. -/
theorem mkQuoteRow_ingested (t : String) (now : Nat) (e : String × DailyPrices) :
    (mkQuoteRow t now e).lookup "ingested_at" = some (some (Val.time now)) :=
  rfl

/-- Claim C7: for every successful 200-with-payload response of a queried
entry (in a run whose queried entries raise no exception), the fetch maps
exactly the first — i.e. most recent, in the newest-first API order — at
most 30 daily entries of that payload into quote records, contributed as a
contiguous block of the result, each stamped with the fetch-time
`ingested_at` value. -/
theorem C7_thirty_entries_stamped (http : String → FetchOutcome) (now : Nat)
    (cs : List Company) (c : Company) (series : List (String × DailyPrices))
    (hmem : c ∈ cs.take 2)
    (hresp : http c.ticker = .response 200 (some series))
    (hnoexn : ((cs.take 2).all fun x => !isRaises (http x.ticker)) = true) :
    ∃ pre post,
      fetch_stock_prices http now cs =
        pre ++ (series.take 30).map (mkQuoteRow c.ticker now) ++ post ∧
      ((series.take 30).map (mkQuoteRow c.ticker now)).length ≤ 30 ∧
      (((series.take 30).map (mkQuoteRow c.ticker now)).all fun r =>
        r.lookup "ingested_at" == some (some (Val.time now))) = true := by
  obtain ⟨s, t, hst⟩ := List.append_of_mem hmem
  have h1 : fetch_stock_prices http now cs =
      concatMap (entryRecords http now) (cs.take 2) :=
    fetchLoop_no_exn http now (cs.take 2) hnoexn
  have hc : entryRecords http now c =
      (series.take 30).map (mkQuoteRow c.ticker now) := by
    simp [entryRecords, hresp]
  refine ⟨concatMap (entryRecords http now) s,
    concatMap (entryRecords http now) t, ?_, ?_, ?_⟩
  · rw [h1, hst, concatMap_append]
    simp only [concatMap, hc]
    rw [List.append_assoc]
  · calc ((series.take 30).map (mkQuoteRow c.ticker now)).length
        = (series.take 30).length := List.length_map _ _
      _ ≤ 30 := List.length_take_le 30 series
  · simp only [List.all_eq_true]
    intro r hr
    obtain ⟨e, he, rfl⟩ := List.mem_map.mp hr
    simp [mkQuoteRow_ingested]

/-- Witness for C7: the successful one-entry JPM payload under the
soft-failure oracle. -/
theorem C7_thirty_entries_stamped_witness :
    ∃ pre post,
      fetch_stock_prices httpSoft 0 companies =
        pre ++ (goodSeries.take 30).map (mkQuoteRow "JPM" 0) ++ post ∧
      ((goodSeries.take 30).map (mkQuoteRow "JPM" 0)).length ≤ 30 ∧
      (((goodSeries.take 30).map (mkQuoteRow "JPM" 0)).all fun r =>
        r.lookup "ingested_at" == some (some (Val.time 0))) = true :=
  C7_thirty_entries_stamped httpSoft 0 companies
    ⟨"JPM", "JPMorgan Chase", "Finance"⟩ goodSeries (by decide) rfl rfl

end FinancialData
